import Mathlib

/-!
Verification of the metadata-synchronization core (`src/metadata.rs`) of the
kafka-view repository: a shallow embedding of the domain model, the
normalization functions (`fetch_metadata`, `fetch_groups`), the per-cluster
task (`MetadataFetcherTask::run`) and the facade (`MetadataFetcher::add_cluster`),
together with theorems settling the specification claims.

Modelling conventions:
* machine integers (`i32`) are `Int` (no arithmetic overflows occur in the code);
* `UTC::now()` is a `Nat` timestamp supplied by the caller;
* the external consumer client (spec section 6) is modelled by the results of
  its round-trips: `topoFetch n` is the outcome of the n-th topology
  round-trip of one run, `groupFetch` the outcome of the group-list round-trip;
* a `ReplicatedMap` handle is modelled by its observable content, a total
  lookup function; `insert` is whole-value replace under one key and may fail
  (spec section 6); a failed insert leaves the content unchanged;
* `error_chain` errors are modelled as the list of context messages, the
  outermost context first and the root cause last.
-/

namespace KafkaView

/-- `pub type BrokerId = i32`. -/
abbrev BrokerId := Int

/-- `pub type ClusterId = String`. -/
abbrev ClusterId := String

/-- `pub type TopicName = String`. -/
abbrev TopicName := String

/-- Domain model of one partition (source struct `Partition`, lines 22-29). -/
structure Partition where
  id : Int
  leader : BrokerId
  replicas : List BrokerId
  isr : List BrokerId
  error : Option String
deriving Repr, DecidableEq

/-- Domain model of one broker (source struct `Broker`, lines 43-48). -/
structure Broker where
  id : BrokerId
  hostname : String
  port : Int
deriving Repr, DecidableEq

/-- Aggregate metadata snapshot (source struct `Metadata`, lines 60-65).
The `BTreeMap<TopicName, Vec<Partition>>` is modelled as an association list
kept sorted by topic name with unique keys; `refresh_time` is the timestamp
passed in for `UTC::now()`. -/
structure Metadata where
  brokers : List Broker
  topics : List (TopicName × List Partition)
  refresh_time : Nat
deriving Repr, DecidableEq

/-- Domain model of one group member (source struct `GroupMember`). -/
structure GroupMember where
  id : String
  client_id : String
  client_host : String
deriving Repr, DecidableEq

/-- Domain model of one consumer group (source struct `Group`). -/
structure Group where
  name : String
  state : String
  members : List GroupMember
deriving Repr, DecidableEq

/-- An error code reported by the client library for a partition; the library
exposes a descriptive string for it (external collaborator of spec section 6). -/
structure RDError where
  descr : String
deriving Repr, DecidableEq

/-- `rdkafka::error::resp_err_description`: the description of an error code
(external library function, modelled by the description carried in `RDError`). -/
def resp_err_description (e : RDError) : String := e.descr

/-- Raw partition data of one topology response (what `p.id()`, `p.leader()`,
`p.replicas()`, `p.isr()`, `p.error()` return on the wire object). -/
structure RDPartition where
  id : Int
  leader : BrokerId
  replicas : List BrokerId
  isr : List BrokerId
  error : Option RDError
deriving Repr, DecidableEq

/-- Raw topic data of one topology response. -/
structure RDTopic where
  name : TopicName
  partitions : List RDPartition
deriving Repr, DecidableEq

/-- Raw broker data of one topology response. -/
structure RDBroker where
  id : BrokerId
  host : String
  port : Int
deriving Repr, DecidableEq

/-- One raw cluster-topology response (`consumer.fetch_metadata` result). -/
structure TopologyResponse where
  brokers : List RDBroker
  topics : List RDTopic
deriving Repr, DecidableEq

/-- Raw group-member data of one group-list response. -/
structure RDGroupMember where
  id : String
  client_id : String
  client_host : String
deriving Repr, DecidableEq

/-- Raw group data of one group-list response. -/
structure RDGroup where
  name : String
  state : String
  members : List RDGroupMember
deriving Repr, DecidableEq

/-- One raw group-list response (`consumer.fetch_group_list` result). -/
structure GroupListResponse where
  groups : List RDGroup
deriving Repr, DecidableEq

/-- Behavior of one established consumer connection during one run:
the outcome of the n-th topology round-trip and of the group-list round-trip
(spec section 6 collaborator contract; timeouts are fixed at 30000 ms in the
source and are not modelled). -/
structure ConsumerBehavior where
  topoFetch : Nat → Except String TopologyResponse
  groupFetch : Except String GroupListResponse

/-- An error-chain error: context messages, outermost first, root cause last. -/
abbrev Err := List String

/-- Observable content of a `ReplicatedMap` handle: a total lookup function. -/
def CMap (K V : Type) := K → Option V

/-- Whole-value replace under one key (spec section 6: put replaces). -/
def CMap.insert {K V : Type} [DecidableEq K] (m : CMap K V) (k : K) (v : V) : CMap K V :=
  fun q => if q = k then some v else m q

/-- The empty cache content. -/
def CMap.empty {K V : Type} : CMap K V := fun _ => none

/-- Normalization of one raw partition (source lines 90-91 and 204-205):
capture id, leader, replicas, isr, and map the optional error code to its
description. -/
def mkPartition (p : RDPartition) : Partition :=
  { id := p.id, leader := p.leader, replicas := p.replicas, isr := p.isr,
    error := p.error.map resp_err_description }

/-- Normalization of one raw broker (source lines 83 and 196). -/
def mkBroker (b : RDBroker) : Broker :=
  { id := b.id, hostname := b.host, port := b.port }

/-- The comparison used by `partitions.sort_by(a.id.cmp(b.id))`. -/
def partLE (a b : Partition) : Prop := a.id ≤ b.id

instance : DecidableRel partLE := fun a b => inferInstanceAs (Decidable (a.id ≤ b.id))

instance : IsTotal Partition partLE := ⟨fun a b => Int.le_total a.id b.id⟩

instance : IsTrans Partition partLE := ⟨fun _ _ _ h1 h2 => le_trans h1 h2⟩

/-- The stable ascending sort by partition id
(`partitions.sort_by(|a, b| a.id.cmp(&b.id))`, source lines 93 and 207). -/
def sortPartitions (l : List Partition) : List Partition :=
  List.insertionSort partLE l

/-- The normalized, sorted partition list of one raw topic
(source lines 88-93 and 202-207). -/
def topicPartitions (t : RDTopic) : List Partition :=
  sortPartitions (t.partitions.map mkPartition)

/-- `BTreeMap::insert` on the sorted-association-list model: keep keys in
ascending order, replace an existing key. -/
def btreeInsert (k : TopicName) (v : List Partition) :
    List (TopicName × List Partition) → List (TopicName × List Partition)
  | [] => [(k, v)]
  | (q, w) :: rest =>
    if k < q then (k, v) :: (q, w) :: rest
    else if k = q then (k, v) :: rest
    else (q, w) :: btreeInsert k v rest

/-- The topic loop of `fetch_metadata` (source lines 86-95): insert every
reported topic with its sorted partition list into the `BTreeMap`. -/
def normalizeTopics (ts : List RDTopic) : List (TopicName × List Partition) :=
  ts.foldl (fun acc t => btreeInsert t.name (topicPartitions t) acc) []

/-- The snapshot assembled by `fetch_metadata` from one topology response
(`Metadata::new(brokers, topics)` with `refresh_time = UTC::now()`). -/
def mkMetadata (m : TopologyResponse) (now : Nat) : Metadata :=
  { brokers := m.brokers.map mkBroker, topics := normalizeTopics m.topics,
    refresh_time := now }

/-- Model of `fetch_metadata` (source lines 77-98): normalize one topology
round-trip result into a `Metadata` snapshot, chaining the fixed context
message on a client error; `now` stands for `UTC::now()` in `Metadata::new`. -/
def fetch_metadata (res : Except String TopologyResponse) (now : Nat) :
    Except Err Metadata :=
  match res with
  | .error cause => .error ["Failed to fetch metadata from consumer", cause]
  | .ok m => .ok (mkMetadata m now)

/-- Normalization of one raw group member (source lines 124-130). -/
def mkGroupMember (m : RDGroupMember) : GroupMember :=
  { id := m.id, client_id := m.client_id, client_host := m.client_host }

/-- Normalization of one raw group (source lines 131-135). -/
def mkGroup (g : RDGroup) : Group :=
  { name := g.name, state := g.state, members := g.members.map mkGroupMember }

/-- Model of `fetch_groups` (source lines 118-138): normalize one group-list
round-trip result, chaining the fixed context message on a client error. -/
def fetch_groups (res : Except String GroupListResponse) : Except Err (List Group) :=
  match res with
  | .error cause => .error ["Failed to fetch consumer group list", cause]
  | .ok gl => .ok (gl.groups.map mkGroup)

/-- Which cache writes fail during a run: each `ReplicatedMap::insert` may fail
(spec section 6, e.g. a replication error); a failed insert leaves the cache
content unchanged. -/
structure WriteFaults where
  cacheFail : ClusterId → Bool
  brokerFail : ClusterId → Bool
  topicFail : ClusterId × TopicName → Bool
  groupFail : ClusterId × String → Bool

/-- No cache write fails. -/
def noWriteFaults (f : WriteFaults) : Prop :=
  (∀ k, f.cacheFail k = false) ∧ (∀ k, f.brokerFail k = false) ∧
  (∀ k, f.topicFail k = false) ∧ (∀ k, f.groupFail k = false)

/-- The content of the four caches (the `ReplicatedMap`s handed to every task,
source lines 146-149). -/
structure CacheState where
  cache : CMap ClusterId Metadata
  brokerCache : CMap ClusterId (List Broker)
  topicCache : CMap (ClusterId × TopicName) (List Partition)
  groupCache : CMap (ClusterId × String) Group

/-- All four caches empty. -/
def CacheState.empty : CacheState :=
  { cache := CMap.empty, brokerCache := CMap.empty,
    topicCache := CMap.empty, groupCache := CMap.empty }

/-- The per-cluster task (source struct `MetadataFetcherTask`, lines 142-150);
the aliased cache handles are modelled by the explicit `CacheState` threaded
through `run`. -/
structure MetadataFetcherTask where
  cluster_id : ClusterId
  boostrap_servers : String
  consumer : Option ConsumerBehavior

/-- The topic loop of `run` (source lines 201-211): insert each reported
topic's sorted partition list under `(cluster_id, topic_name)`, aborting at
the first failed insert with the loop's fixed context message (which names
broker information, not topics, and carries no key). -/
def insertTopics (cid : ClusterId) (f : WriteFaults) :
    List RDTopic → CMap (ClusterId × TopicName) (List Partition) →
    CMap (ClusterId × TopicName) (List Partition) × Except Err Unit
  | [], tc => (tc, .ok ())
  | t :: rest, tc =>
    if f.topicFail (cid, t.name) then
      (tc, .error ["Failed to insert broker information in cache"])
    else
      insertTopics cid f rest (tc.insert (cid, t.name) (topicPartitions t))

/-- The group loop of `run` (source lines 214-216): the insert result is
discarded, so a failed insert neither stops the loop nor fails the run. -/
def insertGroups (cid : ClusterId) (f : WriteFaults) :
    List Group → CMap (ClusterId × String) Group → CMap (ClusterId × String) Group
  | [], gc => gc
  | g :: rest, gc =>
    if f.groupFail (cid, g.name) then insertGroups cid f rest gc
    else insertGroups cid f rest (gc.insert (cid, g.name) g)

/-- Model of `<MetadataFetcherTask as ScheduledTask>::run` (source lines
182-219). Returns the cache contents after the run together with the run
result; writes committed before an error persist (no rollback). -/
def MetadataFetcherTask.run (task : MetadataFetcherTask) (f : WriteFaults)
    (now : Nat) (st : CacheState) : CacheState × Except Err Unit :=
  match task.consumer with
  | none => (st, .error ["Consumer not initialized"])
  | some consumer =>
    match fetch_metadata (consumer.topoFetch 0) now with
    | .error e =>
      (st, .error (("Metadata fetch failed, cluster: " ++ task.cluster_id) :: e))
    | .ok metadata =>
      if f.cacheFail task.cluster_id then
        (st, .error ["Failed to create new metadata container to cache"])
      else
        let st1 : CacheState := { st with cache := st.cache.insert task.cluster_id metadata }
        match consumer.topoFetch 1 with
        | .error cause => (st1, .error ["Failed to fetch metadata from consumer", cause])
        | .ok metadata2 =>
          if f.brokerFail task.cluster_id then
            (st1, .error ["Failed to insert broker information in cache"])
          else
            let st2 : CacheState :=
              { st1 with brokerCache :=
                  st1.brokerCache.insert task.cluster_id (metadata2.brokers.map mkBroker) }
            match insertTopics task.cluster_id f metadata2.topics st2.topicCache with
            | (tc, .error e) => ({ st2 with topicCache := tc }, .error e)
            | (tc, .ok _) =>
              let st3 : CacheState := { st2 with topicCache := tc }
              match fetch_groups consumer.groupFetch with
              | .error e => (st3, .error e)
              | .ok groups =>
                ({ st3 with groupCache :=
                    insertGroups task.cluster_id f groups st3.groupCache }, .ok ())

/-- Outcome of a computation that may panic (Rust `panic!` via `.expect`). -/
inductive PanicOr (α : Type) where
  | panicked (msg : String)
  | ret (a : α)

/-- True when the outcome is a panic. -/
def PanicOr.isPanicked {α : Type} : PanicOr α → Bool
  | .panicked _ => true
  | .ret _ => false

/-- The panic message, when the outcome is a panic. -/
def PanicOr.panicMsg {α : Type} : PanicOr α → Option String
  | .panicked m => some m
  | .ret _ => none

/-- True when the outcome is a normally returned error value. -/
def returnsErrValue {α : Type} : PanicOr (α × Except Err Unit) → Bool
  | .ret (_, .error _) => true
  | _ => false

/-- The recurring-task scheduler interface consumed by the facade
(spec section 6: new(interval, concurrency_limit) and register(key, task)). -/
structure Scheduler where
  interval : Nat
  maxThreads : Nat
  tasks : List (ClusterId × MetadataFetcherTask)

/-- `Scheduler::new(interval, 2)` as used at source line 239. -/
def Scheduler.new (interval maxThreads : Nat) : Scheduler :=
  { interval := interval, maxThreads := maxThreads, tasks := [] }

/-- `scheduler.add_task(key, task)` (source line 253). -/
def Scheduler.add_task (s : Scheduler) (k : ClusterId) (t : MetadataFetcherTask) : Scheduler :=
  { s with tasks := s.tasks ++ [(k, t)] }

/-- `MetadataFetcherTask::new` (source lines 153-170): the consumer starts out
unestablished. -/
def MetadataFetcherTask.new (cluster_id : ClusterId) (boostrap_servers : String) :
    MetadataFetcherTask :=
  { cluster_id := cluster_id, boostrap_servers := boostrap_servers, consumer := none }

/-- Model of `create_consumer` (source lines 172-178): `conn` is the outcome of
attempting to create the client for the bootstrap servers; `.expect(...)`
panics with the fixed message when creation fails. -/
def MetadataFetcherTask.create_consumer (task : MetadataFetcherTask)
    (conn : Except String ConsumerBehavior) : PanicOr MetadataFetcherTask :=
  match conn with
  | .error _ => .panicked "Consumer creation failed"
  | .ok c => .ret { task with consumer := some c }

/-- The facade (source struct `MetadataFetcher`, lines 222-228); the aliased
cache handles are modelled by the explicit `CacheState`, so only the scheduler
is carried. -/
structure MetadataFetcher where
  scheduler : Scheduler

/-- Model of `MetadataFetcher::add_cluster` (source lines 247-255): build a
task, establish its consumer (which panics on failure), register it with the
scheduler, and return Ok. -/
def MetadataFetcher.add_cluster (fetcher : MetadataFetcher) (cluster_id : ClusterId)
    (boostrap_servers : String) (conn : Except String ConsumerBehavior) :
    PanicOr (MetadataFetcher × Except Err Unit) :=
  match (MetadataFetcherTask.new cluster_id boostrap_servers).create_consumer conn with
  | .panicked m => .panicked m
  | .ret task => .ret ({ scheduler := fetcher.scheduler.add_task cluster_id task }, .ok ())

/-- The fault-free topic loop as a pure left fold of inserts. -/
def applyTopics (cid : ClusterId) (ts : List RDTopic)
    (tc : CMap (ClusterId × TopicName) (List Partition)) :
    CMap (ClusterId × TopicName) (List Partition) :=
  ts.foldl (fun m t => m.insert (cid, t.name) (topicPartitions t)) tc

/-- The fault-free group loop as a pure left fold of inserts. -/
def applyGroups (cid : ClusterId) (gs : List Group)
    (gc : CMap (ClusterId × String) Group) : CMap (ClusterId × String) Group :=
  gs.foldl (fun m g => m.insert (cid, g.name) g) gc

/-- The last value written under `key` by the topic loop over `ts`, if any. -/
def lastTopic (cid : ClusterId) (key : ClusterId × TopicName) :
    List RDTopic → Option (List Partition)
  | [] => none
  | t :: rest =>
    match lastTopic cid key rest with
    | some v => some v
    | none => if key = (cid, t.name) then some (topicPartitions t) else none

/-- The last value written under `key` by the group loop over `gs`, if any. -/
def lastGroup (cid : ClusterId) (key : ClusterId × String) :
    List Group → Option Group
  | [] => none
  | g :: rest =>
    match lastGroup cid key rest with
    | some v => some v
    | none => if key = (cid, g.name) then some g else none

/-- First alternative if present, otherwise the fallback. -/
def pick {V : Type} (o : Option V) (fallback : Option V) : Option V :=
  match o with
  | some v => some v
  | none => fallback

/-- Pointwise key preservation: every key present in `a` is present in `b`. -/
def CMap.keysSub {K V : Type} (a b : CMap K V) : Prop :=
  ∀ k, (a k).isSome = true → (b k).isSome = true

/-- All four caches only ever gain keys between the two states. -/
def stateMono (s s2 : CacheState) : Prop :=
  CMap.keysSub s.cache s2.cache ∧ CMap.keysSub s.brokerCache s2.brokerCache ∧
  CMap.keysSub s.topicCache s2.topicCache ∧ CMap.keysSub s.groupCache s2.groupCache

/-- Whether `needle` occurs at the start of `hay`. -/
def matchesHere : List Char → List Char → Bool
  | [], _ => true
  | _ :: _, [] => false
  | a :: as, b :: bs => decide (a = b) && matchesHere as bs

/-- Whether `needle` occurs anywhere inside `hay`. -/
def occursIn (needle : List Char) : List Char → Bool
  | [] => matchesHere needle []
  | b :: bs => matchesHere needle (b :: bs) || occursIn needle bs

/-- Whether any message of an error chain mentions the cluster id. -/
def mentionsCluster (cid : String) (msgs : List String) : Bool :=
  msgs.any (fun m => occursIn cid.data m.data)

theorem CMap.lookup_insert_self {K V : Type} [DecidableEq K] (m : CMap K V) (k : K) (v : V) :
    m.insert k v k = some v := by
  simp [CMap.insert]

theorem CMap.lookup_insert_ne {K V : Type} [DecidableEq K] (m : CMap K V) (k q : K) (v : V)
    (h : q ≠ k) : m.insert k v q = m q := by
  simp [CMap.insert, h]

theorem CMap.insert_isSome {K V : Type} [DecidableEq K] (m : CMap K V) (k q : K) (v : V)
    (h : (m q).isSome = true) : (m.insert k v q).isSome = true := by
  by_cases hq : q = k
  · subst hq; simp [CMap.insert]
  · simp [CMap.insert, hq]; exact h

theorem CMap.insert_insert_self {K V : Type} [DecidableEq K] (m : CMap K V) (k : K) (v w : V) :
    (m.insert k v).insert k w = m.insert k w := by
  funext q
  by_cases hq : q = k <;> simp [CMap.insert, hq]

theorem CMap.insert_eq_self {K V : Type} [DecidableEq K] (m : CMap K V) (k : K) (v : V)
    (h : m k = some v) : m.insert k v = m := by
  funext q
  by_cases hq : q = k
  · subst hq; simp [CMap.insert, h]
  · simp [CMap.insert, hq]

theorem insertTopics_nofault (cid : ClusterId) (f : WriteFaults) (ts : List RDTopic) :
    ∀ tc : CMap (ClusterId × TopicName) (List Partition),
    (∀ t ∈ ts, f.topicFail (cid, t.name) = false) →
    insertTopics cid f ts tc = (applyTopics cid ts tc, .ok ()) := by
  induction ts with
  | nil => intro tc _; rfl
  | cons t rest ih =>
    intro tc h
    have ht : f.topicFail (cid, t.name) = false := h t (List.mem_cons_self t rest)
    simp only [insertTopics, ht, Bool.false_eq_true, if_false]
    exact ih _ (fun x hx => h x (List.mem_cons_of_mem t hx))

theorem insertGroups_nofault (cid : ClusterId) (f : WriteFaults) (gs : List Group) :
    ∀ gc : CMap (ClusterId × String) Group,
    (∀ g ∈ gs, f.groupFail (cid, g.name) = false) →
    insertGroups cid f gs gc = applyGroups cid gs gc := by
  induction gs with
  | nil => intro gc _; rfl
  | cons g rest ih =>
    intro gc h
    have hg : f.groupFail (cid, g.name) = false := h g (List.mem_cons_self g rest)
    simp only [insertGroups, hg, Bool.false_eq_true, if_false]
    exact ih _ (fun x hx => h x (List.mem_cons_of_mem g hx))

theorem applyTopics_lookup (cid : ClusterId) (ts : List RDTopic) :
    ∀ (tc : CMap (ClusterId × TopicName) (List Partition)) (key : ClusterId × TopicName),
    applyTopics cid ts tc key = pick (lastTopic cid key ts) (tc key) := by
  induction ts with
  | nil => intro tc key; rfl
  | cons t rest ih =>
    intro tc key
    have step : applyTopics cid (t :: rest) tc
        = applyTopics cid rest (tc.insert (cid, t.name) (topicPartitions t)) := rfl
    rw [step, ih]
    simp only [lastTopic]
    cases hl : lastTopic cid key rest with
    | some v => simp [pick]
    | none =>
      by_cases hk : key = (cid, t.name)
      · simp [pick, CMap.insert, hk]
      · simp [pick, CMap.insert, hk]

theorem applyGroups_lookup (cid : ClusterId) (gs : List Group) :
    ∀ (gc : CMap (ClusterId × String) Group) (key : ClusterId × String),
    applyGroups cid gs gc key = pick (lastGroup cid key gs) (gc key) := by
  induction gs with
  | nil => intro gc key; rfl
  | cons g rest ih =>
    intro gc key
    have step : applyGroups cid (g :: rest) gc
        = applyGroups cid rest (gc.insert (cid, g.name) g) := rfl
    rw [step, ih]
    simp only [lastGroup]
    cases hl : lastGroup cid key rest with
    | some v => simp [pick]
    | none =>
      by_cases hk : key = (cid, g.name)
      · simp [pick, CMap.insert, hk]
      · simp [pick, CMap.insert, hk]

theorem applyTopics_idem (cid : ClusterId) (ts : List RDTopic)
    (tc : CMap (ClusterId × TopicName) (List Partition)) :
    applyTopics cid ts (applyTopics cid ts tc) = applyTopics cid ts tc := by
  funext key
  rw [applyTopics_lookup cid ts (applyTopics cid ts tc) key, applyTopics_lookup cid ts tc key]
  cases hl : lastTopic cid key ts <;> simp [pick]

theorem applyGroups_idem (cid : ClusterId) (gs : List Group)
    (gc : CMap (ClusterId × String) Group) :
    applyGroups cid gs (applyGroups cid gs gc) = applyGroups cid gs gc := by
  funext key
  rw [applyGroups_lookup cid gs (applyGroups cid gs gc) key, applyGroups_lookup cid gs gc key]
  cases hl : lastGroup cid key gs <;> simp [pick]

theorem lastTopic_eq_none (cid : ClusterId) (key : ClusterId × TopicName) (ts : List RDTopic)
    (h : ∀ t ∈ ts, key ≠ (cid, t.name)) : lastTopic cid key ts = none := by
  induction ts with
  | nil => rfl
  | cons t rest ih =>
    simp only [lastTopic]
    rw [ih (fun x hx => h x (List.mem_cons_of_mem t hx))]
    simp [h t (List.mem_cons_self t rest)]

theorem lastTopic_of_unique (cid : ClusterId) (tp : RDTopic) (ts : List RDTopic)
    (hmem : tp ∈ ts) (huniq : ∀ t ∈ ts, t.name = tp.name → t = tp) :
    lastTopic cid (cid, tp.name) ts = some (topicPartitions tp) := by
  induction ts with
  | nil => cases hmem
  | cons t rest ih =>
    by_cases hr : tp ∈ rest
    · have hrec := ih hr (fun x hx hn => huniq x (List.mem_cons_of_mem t hx) hn)
      simp only [lastTopic, hrec]
    · have htp : tp = t := (List.mem_cons.mp hmem).resolve_right hr
      subst htp
      have hnone : lastTopic cid (cid, tp.name) rest = none := by
        apply lastTopic_eq_none
        intro x hx hkey
        have hxname : x.name = tp.name := (congrArg Prod.snd hkey).symm
        exact hr ((huniq x (List.mem_cons_of_mem tp hx) hxname) ▸ hx)
      simp [lastTopic, hnone]

theorem insertTopics_fst_frame (cid : ClusterId) (f : WriteFaults) (ts : List RDTopic) :
    ∀ (tc : CMap (ClusterId × TopicName) (List Partition)) (key : ClusterId × TopicName),
    (∀ t ∈ ts, key ≠ (cid, t.name)) →
    (insertTopics cid f ts tc).1 key = tc key := by
  induction ts with
  | nil => intro tc key _; rfl
  | cons t rest ih =>
    intro tc key h
    simp only [insertTopics]
    split
    · rfl
    · rw [ih _ key (fun x hx => h x (List.mem_cons_of_mem t hx))]
      exact CMap.lookup_insert_ne _ _ _ _ (h t (List.mem_cons_self t rest))

theorem insertTopics_fst_isSome (cid : ClusterId) (f : WriteFaults) (ts : List RDTopic) :
    ∀ (tc : CMap (ClusterId × TopicName) (List Partition)) (key : ClusterId × TopicName),
    (tc key).isSome = true → ((insertTopics cid f ts tc).1 key).isSome = true := by
  induction ts with
  | nil => intro tc key h; exact h
  | cons t rest ih =>
    intro tc key h
    simp only [insertTopics]
    split
    · exact h
    · exact ih _ key (CMap.insert_isSome _ _ _ _ h)

theorem insertGroups_isSome (cid : ClusterId) (f : WriteFaults) (gs : List Group) :
    ∀ (gc : CMap (ClusterId × String) Group) (key : ClusterId × String),
    (gc key).isSome = true → (insertGroups cid f gs gc key).isSome = true := by
  induction gs with
  | nil => intro gc key h; exact h
  | cons g rest ih =>
    intro gc key h
    simp only [insertGroups]
    split
    · exact ih _ key h
    · exact ih _ key (CMap.insert_isSome _ _ _ _ h)

theorem insertTopics_snd_error (cid : ClusterId) (f : WriteFaults) (ts : List RDTopic) :
    ∀ tc : CMap (ClusterId × TopicName) (List Partition),
    (∃ t ∈ ts, f.topicFail (cid, t.name) = true) →
    (insertTopics cid f ts tc).2 = .error ["Failed to insert broker information in cache"] := by
  induction ts with
  | nil => intro tc h; obtain ⟨t, ht, _⟩ := h; cases ht
  | cons t rest ih =>
    intro tc h
    simp only [insertTopics]
    by_cases hf : f.topicFail (cid, t.name) = true
    · simp [hf]
    · have hft : f.topicFail (cid, t.name) = false := Bool.eq_false_iff.mpr hf
      simp only [hft, Bool.false_eq_true, if_false]
      apply ih
      obtain ⟨x, hx, hxf⟩ := h
      rcases List.mem_cons.mp hx with hhead | htail
      · exact absurd (hhead ▸ hxf) hf
      · exact ⟨x, htail, hxf⟩

theorem sortPartitions_sorted (l : List Partition) :
    List.Sorted partLE (sortPartitions l) :=
  List.sorted_insertionSort partLE l

theorem mem_sortPartitions {p : Partition} {l : List Partition} :
    p ∈ sortPartitions l ↔ p ∈ l :=
  List.mem_insertionSort partLE

theorem topicPartitions_sorted (t : RDTopic) :
    List.Sorted partLE (topicPartitions t) :=
  sortPartitions_sorted _

theorem mem_btreeInsert_elim {k : TopicName} {v : List Partition}
    {l : List (TopicName × List Partition)} {e : TopicName × List Partition}
    (h : e ∈ btreeInsert k v l) : e = (k, v) ∨ e ∈ l := by
  induction l with
  | nil => simpa [btreeInsert] using h
  | cons q rest ih =>
    obtain ⟨qk, qv⟩ := q
    simp only [btreeInsert] at h
    split at h
    · rcases List.mem_cons.mp h with h1 | h1
      · exact Or.inl h1
      · exact Or.inr h1
    · split at h
      · rcases List.mem_cons.mp h with h1 | h1
        · exact Or.inl h1
        · exact Or.inr (List.mem_cons_of_mem _ h1)
      · rcases List.mem_cons.mp h with h1 | h1
        · exact Or.inr (h1 ▸ List.mem_cons_self _ _)
        · rcases ih h1 with h2 | h2
          · exact Or.inl h2
          · exact Or.inr (List.mem_cons_of_mem _ h2)

theorem self_mem_btreeInsert (k : TopicName) (v : List Partition)
    (l : List (TopicName × List Partition)) : (k, v) ∈ btreeInsert k v l := by
  induction l with
  | nil => simp [btreeInsert]
  | cons q rest ih =>
    obtain ⟨qk, qv⟩ := q
    simp only [btreeInsert]
    split
    · exact List.mem_cons_self _ _
    · split
      · exact List.mem_cons_self _ _
      · exact List.mem_cons_of_mem _ ih

theorem mem_btreeInsert_keep {e : TopicName × List Partition} {k : TopicName}
    {v : List Partition} {l : List (TopicName × List Partition)}
    (he : e ∈ l) (hk : e.1 = k → e.2 = v) : e ∈ btreeInsert k v l := by
  induction l with
  | nil => cases he
  | cons q rest ih =>
    obtain ⟨qk, qv⟩ := q
    simp only [btreeInsert]
    split
    · exact List.mem_cons_of_mem _ he
    · split
      · rename_i hlt heq
        rcases List.mem_cons.mp he with h1 | h1
        · have he1 : e.1 = k := by rw [h1, heq]
          have he2 : e.2 = v := hk he1
          have : e = (k, v) := Prod.ext he1 he2
          exact this ▸ List.mem_cons_self _ _
        · exact List.mem_cons_of_mem _ h1
      · rcases List.mem_cons.mp he with h1 | h1
        · exact h1 ▸ List.mem_cons_self _ _
        · exact List.mem_cons_of_mem _ (ih h1)

theorem normalizeTopics_go_elim (ts : List RDTopic) :
    ∀ (acc : List (TopicName × List Partition)) (e : TopicName × List Partition),
    e ∈ ts.foldl (fun a t => btreeInsert t.name (topicPartitions t) a) acc →
    e ∈ acc ∨ ∃ t ∈ ts, e = (t.name, topicPartitions t) := by
  induction ts with
  | nil => intro acc e h; exact Or.inl h
  | cons t rest ih =>
    intro acc e h
    simp only [List.foldl_cons] at h
    rcases ih _ e h with h1 | h1
    · rcases mem_btreeInsert_elim h1 with h2 | h2
      · exact Or.inr ⟨t, List.mem_cons_self t rest, h2⟩
      · exact Or.inl h2
    · obtain ⟨x, hx, he⟩ := h1
      exact Or.inr ⟨x, List.mem_cons_of_mem t hx, he⟩

theorem normalizeTopics_go_keep (ts : List RDTopic) :
    ∀ (acc : List (TopicName × List Partition)) (e : TopicName × List Partition),
    e ∈ acc → (∀ t ∈ ts, t.name = e.1 → topicPartitions t = e.2) →
    e ∈ ts.foldl (fun a t => btreeInsert t.name (topicPartitions t) a) acc := by
  induction ts with
  | nil => intro acc e h _; exact h
  | cons t rest ih =>
    intro acc e h hcond
    simp only [List.foldl_cons]
    apply ih
    · exact mem_btreeInsert_keep h
        (fun h1 => (hcond t (List.mem_cons_self t rest) h1.symm).symm)
    · intro x hx
      exact hcond x (List.mem_cons_of_mem t hx)

theorem normalizeTopics_go_mem (ts : List RDTopic) :
    ∀ (acc : List (TopicName × List Partition)) (tp : RDTopic),
    tp ∈ ts → (∀ t ∈ ts, t.name = tp.name → t = tp) →
    (tp.name, topicPartitions tp) ∈
      ts.foldl (fun a t => btreeInsert t.name (topicPartitions t) a) acc := by
  induction ts with
  | nil => intro acc tp h _; cases h
  | cons t rest ih =>
    intro acc tp hmem huniq
    simp only [List.foldl_cons]
    by_cases hr : tp ∈ rest
    · exact ih _ tp hr (fun x hx hn => huniq x (List.mem_cons_of_mem t hx) hn)
    · have htp : tp = t := (List.mem_cons.mp hmem).resolve_right hr
      subst htp
      apply normalizeTopics_go_keep
      · exact self_mem_btreeInsert _ _ _
      · intro x hx hn
        exact absurd ((huniq x (List.mem_cons_of_mem tp hx) hn) ▸ hx) hr

theorem normalizeTopics_sorted {ts : List RDTopic} {e : TopicName × List Partition}
    (h : e ∈ normalizeTopics ts) : List.Sorted partLE e.2 := by
  rcases normalizeTopics_go_elim ts [] e h with h1 | h1
  · cases h1
  · obtain ⟨t, _, he⟩ := h1
    rw [he]
    exact topicPartitions_sorted t

theorem mem_normalizeTopics_of_unique {tp : RDTopic} {ts : List RDTopic}
    (hmem : tp ∈ ts) (huniq : ∀ t ∈ ts, t.name = tp.name → t = tp) :
    (tp.name, topicPartitions tp) ∈ normalizeTopics ts :=
  normalizeTopics_go_mem ts [] tp hmem huniq

theorem run_consumer_none (task : MetadataFetcherTask) (f : WriteFaults) (now : Nat)
    (st : CacheState) (hc : task.consumer = none) :
    task.run f now st = (st, .error ["Consumer not initialized"]) := by
  simp only [MetadataFetcherTask.run, hc]

theorem run_fetch0_error (task : MetadataFetcherTask) (c : ConsumerBehavior) (f : WriteFaults)
    (now : Nat) (st : CacheState) (cause : String)
    (hc : task.consumer = some c) (h0 : c.topoFetch 0 = .error cause) :
    task.run f now st =
      (st, .error (("Metadata fetch failed, cluster: " ++ task.cluster_id) ::
        "Failed to fetch metadata from consumer" :: [cause])) := by
  simp only [MetadataFetcherTask.run, hc]
  rw [h0]
  simp only [fetch_metadata]

theorem run_cacheFail (task : MetadataFetcherTask) (c : ConsumerBehavior) (f : WriteFaults)
    (now : Nat) (st : CacheState) (r0 : TopologyResponse)
    (hc : task.consumer = some c) (h0 : c.topoFetch 0 = .ok r0)
    (hcf : f.cacheFail task.cluster_id = true) :
    task.run f now st = (st, .error ["Failed to create new metadata container to cache"]) := by
  simp only [MetadataFetcherTask.run, hc]
  rw [h0]
  simp only [fetch_metadata]
  simp only [hcf, if_true]

theorem run_fetch1_error (task : MetadataFetcherTask) (c : ConsumerBehavior) (f : WriteFaults)
    (now : Nat) (st : CacheState) (r0 : TopologyResponse) (cause : String)
    (hc : task.consumer = some c) (h0 : c.topoFetch 0 = .ok r0)
    (hcf : f.cacheFail task.cluster_id = false) (h1 : c.topoFetch 1 = .error cause) :
    task.run f now st =
      ({ st with cache := st.cache.insert task.cluster_id (mkMetadata r0 now) },
       .error ["Failed to fetch metadata from consumer", cause]) := by
  simp only [MetadataFetcherTask.run, hc]
  rw [h0]
  simp only [fetch_metadata]
  simp only [hcf, Bool.false_eq_true, if_false]
  rw [h1]

theorem run_brokerFail (task : MetadataFetcherTask) (c : ConsumerBehavior) (f : WriteFaults)
    (now : Nat) (st : CacheState) (r0 r1 : TopologyResponse)
    (hc : task.consumer = some c) (h0 : c.topoFetch 0 = .ok r0)
    (hcf : f.cacheFail task.cluster_id = false) (h1 : c.topoFetch 1 = .ok r1)
    (hbf : f.brokerFail task.cluster_id = true) :
    task.run f now st =
      ({ st with cache := st.cache.insert task.cluster_id (mkMetadata r0 now) },
       .error ["Failed to insert broker information in cache"]) := by
  simp only [MetadataFetcherTask.run, hc]
  rw [h0]
  simp only [fetch_metadata]
  simp only [hcf, Bool.false_eq_true, if_false]
  rw [h1]
  simp only [hbf, if_true]

theorem run_unfold2 (task : MetadataFetcherTask) (c : ConsumerBehavior) (f : WriteFaults)
    (now : Nat) (st : CacheState) (r0 r1 : TopologyResponse)
    (hc : task.consumer = some c) (h0 : c.topoFetch 0 = .ok r0)
    (hcf : f.cacheFail task.cluster_id = false) (h1 : c.topoFetch 1 = .ok r1)
    (hbf : f.brokerFail task.cluster_id = false) :
    task.run f now st =
      (match insertTopics task.cluster_id f r1.topics st.topicCache with
       | (tc, .error e) =>
         ({ cache := st.cache.insert task.cluster_id (mkMetadata r0 now),
            brokerCache := st.brokerCache.insert task.cluster_id (r1.brokers.map mkBroker),
            topicCache := tc, groupCache := st.groupCache }, .error e)
       | (tc, .ok _) =>
         match fetch_groups c.groupFetch with
         | .error e =>
           ({ cache := st.cache.insert task.cluster_id
                { brokers := r0.brokers.map mkBroker, topics := normalizeTopics r0.topics,
                  refresh_time := now },
              brokerCache := st.brokerCache.insert task.cluster_id (r1.brokers.map mkBroker),
              topicCache := tc, groupCache := st.groupCache }, .error e)
         | .ok groups =>
           ({ cache := st.cache.insert task.cluster_id
                { brokers := r0.brokers.map mkBroker, topics := normalizeTopics r0.topics,
                  refresh_time := now },
              brokerCache := st.brokerCache.insert task.cluster_id (r1.brokers.map mkBroker),
              topicCache := tc,
              groupCache := insertGroups task.cluster_id f groups st.groupCache }, .ok ())) := by
  simp only [MetadataFetcherTask.run, hc]
  rw [h0]
  simp only [fetch_metadata]
  simp only [hcf, Bool.false_eq_true, if_false]
  rw [h1]
  simp only [hbf, Bool.false_eq_true, if_false]
  rfl

theorem run_ok (task : MetadataFetcherTask) (c : ConsumerBehavior) (f : WriteFaults)
    (now : Nat) (st : CacheState) (r0 r1 : TopologyResponse) (gl : GroupListResponse)
    (hc : task.consumer = some c) (h0 : c.topoFetch 0 = .ok r0)
    (hcf : f.cacheFail task.cluster_id = false) (h1 : c.topoFetch 1 = .ok r1)
    (hbf : f.brokerFail task.cluster_id = false)
    (htf : ∀ t ∈ r1.topics, f.topicFail (task.cluster_id, t.name) = false)
    (hg : c.groupFetch = .ok gl) :
    task.run f now st =
      ({ cache := st.cache.insert task.cluster_id (mkMetadata r0 now),
         brokerCache := st.brokerCache.insert task.cluster_id (r1.brokers.map mkBroker),
         topicCache := applyTopics task.cluster_id r1.topics st.topicCache,
         groupCache := insertGroups task.cluster_id f (gl.groups.map mkGroup)
           st.groupCache }, .ok ()) := by
  rw [run_unfold2 task c f now st r0 r1 hc h0 hcf h1 hbf]
  rw [insertTopics_nofault task.cluster_id f r1.topics st.topicCache htf]
  rw [hg]
  simp only [fetch_groups]
  rfl

theorem run_groupFetch_error (task : MetadataFetcherTask) (c : ConsumerBehavior)
    (f : WriteFaults) (now : Nat) (st : CacheState) (r0 r1 : TopologyResponse) (cause : String)
    (hc : task.consumer = some c) (h0 : c.topoFetch 0 = .ok r0)
    (hcf : f.cacheFail task.cluster_id = false) (h1 : c.topoFetch 1 = .ok r1)
    (hbf : f.brokerFail task.cluster_id = false)
    (htf : ∀ t ∈ r1.topics, f.topicFail (task.cluster_id, t.name) = false)
    (hg : c.groupFetch = .error cause) :
    task.run f now st =
      ({ cache := st.cache.insert task.cluster_id (mkMetadata r0 now),
         brokerCache := st.brokerCache.insert task.cluster_id (r1.brokers.map mkBroker),
         topicCache := applyTopics task.cluster_id r1.topics st.topicCache,
         groupCache := st.groupCache },
       .error ["Failed to fetch consumer group list", cause]) := by
  rw [run_unfold2 task c f now st r0 r1 hc h0 hcf h1 hbf]
  rw [insertTopics_nofault task.cluster_id f r1.topics st.topicCache htf]
  rw [hg]
  simp only [fetch_groups]
  rfl

theorem CMap.keysSub_refl {K V : Type} (m : CMap K V) : CMap.keysSub m m :=
  fun _ h => h

theorem CMap.keysSub_insert {K V : Type} [DecidableEq K] (m : CMap K V) (k : K) (v : V) :
    CMap.keysSub m (m.insert k v) :=
  fun q h => CMap.insert_isSome m k q v h

theorem stateMono_refl (s : CacheState) : stateMono s s :=
  ⟨CMap.keysSub_refl _, CMap.keysSub_refl _, CMap.keysSub_refl _, CMap.keysSub_refl _⟩

theorem insertTopics_fst_elim (cid : ClusterId) (f : WriteFaults) (ts : List RDTopic) :
    ∀ (tc : CMap (ClusterId × TopicName) (List Partition)) (key : ClusterId × TopicName)
      (ps : List Partition),
    (insertTopics cid f ts tc).1 key = some ps →
    tc key = some ps ∨ ∃ t ∈ ts, ps = topicPartitions t := by
  induction ts with
  | nil => intro tc key ps h; exact Or.inl h
  | cons t rest ih =>
    intro tc key ps h
    simp only [insertTopics] at h
    split at h
    · exact Or.inl h
    · rcases ih _ key ps h with h1 | h1
      · by_cases hk : key = (cid, t.name)
        · subst hk
          rw [CMap.lookup_insert_self] at h1
          exact Or.inr ⟨t, List.mem_cons_self t rest, (Option.some.inj h1).symm⟩
        · rw [CMap.lookup_insert_ne _ _ _ _ hk] at h1
          exact Or.inl h1
      · obtain ⟨x, hx, he⟩ := h1
        exact Or.inr ⟨x, List.mem_cons_of_mem t hx, he⟩

theorem aggSorted_insert (mcache : CMap ClusterId Metadata) (cid : ClusterId)
    (r : TopologyResponse) (now : Nat)
    (hA : ∀ k m, mcache k = some m → ∀ e ∈ m.topics, List.Sorted partLE e.2) :
    ∀ k m, mcache.insert cid (mkMetadata r now) k = some m →
    ∀ e ∈ m.topics, List.Sorted partLE e.2 := by
  intro k m h
  by_cases hk : k = cid
  · subst hk
    rw [CMap.lookup_insert_self] at h
    have hm : m = mkMetadata r now := (Option.some.inj h).symm
    subst hm
    intro e he
    exact normalizeTopics_sorted he
  · rw [CMap.lookup_insert_ne _ _ _ _ hk] at h
    exact hA k m h

theorem topicSorted_insertTopics (cid : ClusterId) (f : WriteFaults) (ts : List RDTopic)
    (tc : CMap (ClusterId × TopicName) (List Partition))
    (hT : ∀ key ps, tc key = some ps → List.Sorted partLE ps) :
    ∀ key ps, (insertTopics cid f ts tc).1 key = some ps → List.Sorted partLE ps := by
  intro key ps h
  rcases insertTopics_fst_elim cid f ts tc key ps h with h1 | h1
  · exact hT key ps h1
  · obtain ⟨t, _, he⟩ := h1
    exact he ▸ topicPartitions_sorted t

/-- C7: when the connection handle has not been established (`consumer` is
`None`), `run` fails with the consumer-not-initialized error and leaves all
four caches exactly unchanged. -/
theorem c7_uninitialized_fails_without_writes (task : MetadataFetcherTask) (f : WriteFaults)
    (now : Nat) (st : CacheState) (hc : task.consumer = none) :
    task.run f now st = (st, .error ["Consumer not initialized"]) :=
  run_consumer_none task f now st hc

/-- Witness for C7 at a concrete task built by `MetadataFetcherTask::new`,
whose consumer is unestablished. -/
theorem c7_uninitialized_fails_without_writes_witness :
    (MetadataFetcherTask.new "c1" "b").run
        ⟨fun _ => false, fun _ => false, fun _ => false, fun _ => false⟩ 0 CacheState.empty
      = (CacheState.empty, .error ["Consumer not initialized"]) :=
  c7_uninitialized_fails_without_writes (MetadataFetcherTask.new "c1" "b")
    ⟨fun _ => false, fun _ => false, fun _ => false, fun _ => false⟩ 0 CacheState.empty rfl

/-- C10: `run` never removes a cache key: whatever the consumer state, the
fetch outcomes and the write faults (so on failed runs too), every key present
in any of the four caches before the run is still present afterwards. -/
theorem c10_keys_nondecreasing (task : MetadataFetcherTask) (f : WriteFaults) (now : Nat)
    (st : CacheState) : stateMono st (task.run f now st).1 := by
  cases hc : task.consumer with
  | none =>
    rw [run_consumer_none task f now st hc]
    exact stateMono_refl st
  | some c =>
    cases h0 : c.topoFetch 0 with
    | error cause =>
      rw [run_fetch0_error task c f now st cause hc h0]
      exact stateMono_refl st
    | ok r0 =>
      by_cases hcf : f.cacheFail task.cluster_id = true
      · rw [run_cacheFail task c f now st r0 hc h0 hcf]
        exact stateMono_refl st
      · have hcf2 : f.cacheFail task.cluster_id = false := Bool.not_eq_true _ ▸ hcf
        cases h1 : c.topoFetch 1 with
        | error cause =>
          rw [run_fetch1_error task c f now st r0 cause hc h0 hcf2 h1]
          exact ⟨CMap.keysSub_insert _ _ _, CMap.keysSub_refl _,
            CMap.keysSub_refl _, CMap.keysSub_refl _⟩
        | ok r1 =>
          by_cases hbf : f.brokerFail task.cluster_id = true
          · rw [run_brokerFail task c f now st r0 r1 hc h0 hcf2 h1 hbf]
            exact ⟨CMap.keysSub_insert _ _ _, CMap.keysSub_refl _,
              CMap.keysSub_refl _, CMap.keysSub_refl _⟩
          · have hbf2 : f.brokerFail task.cluster_id = false := Bool.not_eq_true _ ▸ hbf
            rw [run_unfold2 task c f now st r0 r1 hc h0 hcf2 h1 hbf2]
            rcases hins : insertTopics task.cluster_id f r1.topics st.topicCache with ⟨tc, res⟩
            have htc : CMap.keysSub st.topicCache tc := by
              intro q hq
              have := insertTopics_fst_isSome task.cluster_id f r1.topics st.topicCache q hq
              rw [hins] at this
              exact this
            cases res with
            | error e =>
              exact ⟨CMap.keysSub_insert _ _ _, CMap.keysSub_insert _ _ _,
                htc, CMap.keysSub_refl _⟩
            | ok u =>
              cases hgf : c.groupFetch with
              | error cause =>
                simp only [hgf, fetch_groups]
                exact ⟨CMap.keysSub_insert _ _ _, CMap.keysSub_insert _ _ _,
                  htc, CMap.keysSub_refl _⟩
              | ok gl =>
                simp only [hgf, fetch_groups]
                exact ⟨CMap.keysSub_insert _ _ _, CMap.keysSub_insert _ _ _, htc,
                  fun q hq => insertGroups_isSome task.cluster_id f
                    (gl.groups.map mkGroup) st.groupCache q hq⟩

/-- Witness for C10 at a concrete run that succeeds and writes all caches:
a key of another cluster present before the run is still present after it. -/
theorem c10_keys_nondecreasing_witness :
    ((((⟨"c1", "b", some ⟨fun _ => .ok ⟨[⟨1, "h1", 9092⟩], [⟨"t", [⟨0, 1, [1], [1], none⟩]⟩]⟩,
          .ok ⟨[⟨"g", "Stable", []⟩]⟩⟩⟩ : MetadataFetcherTask).run
        ⟨fun _ => false, fun _ => false, fun _ => false, fun _ => false⟩ 3
        { cache := CMap.empty, brokerCache := CMap.empty,
          topicCache := CMap.empty.insert ("c0", "old") [],
          groupCache := CMap.empty }).1).topicCache ("c0", "old")).isSome = true :=
  (c10_keys_nondecreasing
    (⟨"c1", "b", some ⟨fun _ => .ok ⟨[⟨1, "h1", 9092⟩], [⟨"t", [⟨0, 1, [1], [1], none⟩]⟩]⟩,
        .ok ⟨[⟨"g", "Stable", []⟩]⟩⟩⟩ : MetadataFetcherTask)
    ⟨fun _ => false, fun _ => false, fun _ => false, fun _ => false⟩ 3
    { cache := CMap.empty, brokerCache := CMap.empty,
      topicCache := CMap.empty.insert ("c0", "old") [],
      groupCache := CMap.empty }).2.2.1 ("c0", "old") rfl

/-- C3: after every successful run, every partition list stored in the topic
cache and every partition list inside any stored aggregate snapshot is sorted
ascending by partition id (stated as preservation of that invariant, which
holds of the empty initial caches). -/
theorem c3_partition_lists_sorted (task : MetadataFetcherTask) (f : WriteFaults)
    (now : Nat) (st : CacheState)
    (hT : ∀ key ps, st.topicCache key = some ps → List.Sorted partLE ps)
    (hA : ∀ k m, st.cache k = some m → ∀ e ∈ m.topics, List.Sorted partLE e.2)
    (_hok : (task.run f now st).2 = .ok ()) :
    (∀ key ps, (task.run f now st).1.topicCache key = some ps → List.Sorted partLE ps)
    ∧ (∀ k m, (task.run f now st).1.cache k = some m →
        ∀ e ∈ m.topics, List.Sorted partLE e.2) := by
  cases hc : task.consumer with
  | none =>
    rw [run_consumer_none task f now st hc]
    exact ⟨hT, hA⟩
  | some c =>
    cases h0 : c.topoFetch 0 with
    | error cause =>
      rw [run_fetch0_error task c f now st cause hc h0]
      exact ⟨hT, hA⟩
    | ok r0 =>
      by_cases hcf : f.cacheFail task.cluster_id = true
      · rw [run_cacheFail task c f now st r0 hc h0 hcf]
        exact ⟨hT, hA⟩
      · have hcf2 : f.cacheFail task.cluster_id = false := Bool.not_eq_true _ ▸ hcf
        cases h1 : c.topoFetch 1 with
        | error cause =>
          rw [run_fetch1_error task c f now st r0 cause hc h0 hcf2 h1]
          exact ⟨hT, aggSorted_insert st.cache task.cluster_id r0 now hA⟩
        | ok r1 =>
          by_cases hbf : f.brokerFail task.cluster_id = true
          · rw [run_brokerFail task c f now st r0 r1 hc h0 hcf2 h1 hbf]
            exact ⟨hT, aggSorted_insert st.cache task.cluster_id r0 now hA⟩
          · have hbf2 : f.brokerFail task.cluster_id = false := Bool.not_eq_true _ ▸ hbf
            rw [run_unfold2 task c f now st r0 r1 hc h0 hcf2 h1 hbf2]
            have htc := topicSorted_insertTopics task.cluster_id f r1.topics st.topicCache hT
            rcases hins : insertTopics task.cluster_id f r1.topics st.topicCache with ⟨tc, res⟩
            rw [hins] at htc
            cases res with
            | error e =>
              exact ⟨htc, aggSorted_insert st.cache task.cluster_id r0 now hA⟩
            | ok u =>
              cases hgf : c.groupFetch with
              | error cause =>
                simp only [hgf, fetch_groups]
                exact ⟨htc, aggSorted_insert st.cache task.cluster_id r0 now hA⟩
              | ok gl =>
                simp only [hgf, fetch_groups]
                exact ⟨htc, aggSorted_insert st.cache task.cluster_id r0 now hA⟩

/-- Witness for C3: a successful concrete run from empty caches, with the
conclusion instantiated at the freshly written topic-cache entry. -/
theorem c3_partition_lists_sorted_witness :
    List.Sorted partLE [⟨0, 1, [1], [1], none⟩, ⟨1, 1, [1], [1], none⟩] := by
  have h := c3_partition_lists_sorted
    (⟨"c1", "b", some ⟨fun _ => .ok ⟨[⟨1, "h1", 9092⟩],
        [⟨"t", [⟨1, 1, [1], [1], none⟩, ⟨0, 1, [1], [1], none⟩]⟩]⟩,
      .ok ⟨[]⟩⟩⟩ : MetadataFetcherTask)
    ⟨fun _ => false, fun _ => false, fun _ => false, fun _ => false⟩ 3 CacheState.empty
    (fun key ps h => by cases h) (fun k m h => by cases h) (by rfl)
  exact h.1 ("c1", "t") [⟨0, 1, [1], [1], none⟩, ⟨1, 1, [1], [1], none⟩] (by rfl)

/-- C5: a topic-cache key whose topic is absent from the decomposed-phase
upstream listing of a run is left exactly unchanged by that run, whatever the
other fetch outcomes and write faults. -/
theorem c5_absent_topic_key_unchanged (task : MetadataFetcherTask) (c : ConsumerBehavior)
    (f : WriteFaults) (now : Nat) (st : CacheState) (r1 : TopologyResponse)
    (key : ClusterId × TopicName)
    (hc : task.consumer = some c) (h1 : c.topoFetch 1 = .ok r1)
    (habsent : ∀ t ∈ r1.topics, key ≠ (task.cluster_id, t.name)) :
    (task.run f now st).1.topicCache key = st.topicCache key := by
  cases h0 : c.topoFetch 0 with
  | error cause =>
    rw [run_fetch0_error task c f now st cause hc h0]
  | ok r0 =>
    by_cases hcf : f.cacheFail task.cluster_id = true
    · rw [run_cacheFail task c f now st r0 hc h0 hcf]
    · have hcf2 : f.cacheFail task.cluster_id = false := Bool.not_eq_true _ ▸ hcf
      by_cases hbf : f.brokerFail task.cluster_id = true
      · rw [run_brokerFail task c f now st r0 r1 hc h0 hcf2 h1 hbf]
      · have hbf2 : f.brokerFail task.cluster_id = false := Bool.not_eq_true _ ▸ hbf
        rw [run_unfold2 task c f now st r0 r1 hc h0 hcf2 h1 hbf2]
        have hfr := insertTopics_fst_frame task.cluster_id f r1.topics st.topicCache key habsent
        rcases hins : insertTopics task.cluster_id f r1.topics st.topicCache with ⟨tc, res⟩
        rw [hins] at hfr
        cases res with
        | error e => exact hfr
        | ok u =>
          cases hgf : c.groupFetch with
          | error cause =>
            simp only [hgf, fetch_groups]
            exact hfr
          | ok gl =>
            simp only [hgf, fetch_groups]
            exact hfr

/-- Witness for C5: a concrete second run whose upstream listing no longer
reports topic old-topic leaves that key's entry exactly as run 1 wrote it. -/
theorem c5_absent_topic_key_unchanged_witness :
    ((⟨"c1", "b", some ⟨fun _ => .ok ⟨[], [⟨"t2", []⟩]⟩, .ok ⟨[]⟩⟩⟩ :
        MetadataFetcherTask).run
      ⟨fun _ => false, fun _ => false, fun _ => false, fun _ => false⟩ 9
      { cache := CMap.empty, brokerCache := CMap.empty,
        topicCache := CMap.empty.insert ("c1", "old-topic") [⟨0, 1, [1], [1], none⟩],
        groupCache := CMap.empty }).1.topicCache ("c1", "old-topic")
    = some [⟨0, 1, [1], [1], none⟩] := by
  have h := c5_absent_topic_key_unchanged
    (⟨"c1", "b", some ⟨fun _ => .ok ⟨[], [⟨"t2", []⟩]⟩, .ok ⟨[]⟩⟩⟩ : MetadataFetcherTask)
    ⟨fun _ => .ok ⟨[], [⟨"t2", []⟩]⟩, .ok ⟨[]⟩⟩
    ⟨fun _ => false, fun _ => false, fun _ => false, fun _ => false⟩ 9
    { cache := CMap.empty, brokerCache := CMap.empty,
      topicCache := CMap.empty.insert ("c1", "old-topic") [⟨0, 1, [1], [1], none⟩],
      groupCache := CMap.empty }
    ⟨[], [⟨"t2", []⟩]⟩ ("c1", "old-topic") rfl rfl (by decide)
  rw [h]
  rfl

/-- C4: two consecutive runs against unchanged upstream data leave all four
caches with identical content, except that the aggregate snapshot's
refresh_time is replaced by the second run's timestamp. -/
theorem c4_idempotent (task : MetadataFetcherTask) (c : ConsumerBehavior) (f : WriteFaults)
    (now1 now2 : Nat) (st : CacheState) (r0 r1 : TopologyResponse) (gl : GroupListResponse)
    (hc : task.consumer = some c) (h0 : c.topoFetch 0 = .ok r0)
    (h1 : c.topoFetch 1 = .ok r1) (hg : c.groupFetch = .ok gl)
    (hf : noWriteFaults f) :
    (task.run f now2 (task.run f now1 st).1).2 = .ok ()
    ∧ (task.run f now2 (task.run f now1 st).1).1.brokerCache
        = (task.run f now1 st).1.brokerCache
    ∧ (task.run f now2 (task.run f now1 st).1).1.topicCache
        = (task.run f now1 st).1.topicCache
    ∧ (task.run f now2 (task.run f now1 st).1).1.groupCache
        = (task.run f now1 st).1.groupCache
    ∧ (∀ k, k ≠ task.cluster_id →
        (task.run f now2 (task.run f now1 st).1).1.cache k = (task.run f now1 st).1.cache k)
    ∧ (task.run f now1 st).1.cache task.cluster_id = some (mkMetadata r0 now1)
    ∧ (task.run f now2 (task.run f now1 st).1).1.cache task.cluster_id
        = some (mkMetadata r0 now2) := by
  obtain ⟨hfc, hfb, hft, hfg⟩ := hf
  have htf : ∀ t ∈ r1.topics, f.topicFail (task.cluster_id, t.name) = false :=
    fun t _ => hft _
  have hgf : ∀ g ∈ gl.groups.map mkGroup, f.groupFail (task.cluster_id, g.name) = false :=
    fun g _ => hfg _
  have e1 := run_ok task c f now1 st r0 r1 gl hc h0 (hfc _) h1 (hfb _) htf hg
  rw [e1]
  dsimp only
  have e2 := run_ok task c f now2
    { cache := st.cache.insert task.cluster_id (mkMetadata r0 now1),
      brokerCache := st.brokerCache.insert task.cluster_id (r1.brokers.map mkBroker),
      topicCache := applyTopics task.cluster_id r1.topics st.topicCache,
      groupCache := insertGroups task.cluster_id f (gl.groups.map mkGroup) st.groupCache }
    r0 r1 gl hc h0 (hfc _) h1 (hfb _) htf hg
  rw [e2]
  dsimp only
  rw [insertGroups_nofault task.cluster_id f (gl.groups.map mkGroup) _ hgf,
      insertGroups_nofault task.cluster_id f (gl.groups.map mkGroup) _ hgf]
  refine ⟨rfl, ?_, ?_, ?_, ?_, ?_, ?_⟩
  · exact CMap.insert_insert_self _ _ _ _
  · exact applyTopics_idem _ _ _
  · exact applyGroups_idem _ _ _
  · intro k hk
    rw [CMap.lookup_insert_ne _ _ _ _ hk, CMap.lookup_insert_ne _ _ _ _ hk]
  · exact CMap.lookup_insert_self _ _ _
  · exact CMap.lookup_insert_self _ _ _

/-- Witness for C4 at a concrete unchanged upstream: after the second run the
aggregate entry equals the first snapshot with only refresh_time advanced. -/
theorem c4_idempotent_witness :
    ((⟨"c1", "b", some ⟨fun _ => .ok ⟨[⟨1, "h1", 9092⟩], [⟨"t", [⟨0, 1, [1], [1], none⟩]⟩]⟩,
        .ok ⟨[⟨"g", "Stable", []⟩]⟩⟩⟩ : MetadataFetcherTask).run
      ⟨fun _ => false, fun _ => false, fun _ => false, fun _ => false⟩ 7
      ((⟨"c1", "b", some ⟨fun _ => .ok ⟨[⟨1, "h1", 9092⟩], [⟨"t", [⟨0, 1, [1], [1], none⟩]⟩]⟩,
          .ok ⟨[⟨"g", "Stable", []⟩]⟩⟩⟩ : MetadataFetcherTask).run
        ⟨fun _ => false, fun _ => false, fun _ => false, fun _ => false⟩ 3
        CacheState.empty).1).1.cache "c1"
    = some (mkMetadata ⟨[⟨1, "h1", 9092⟩], [⟨"t", [⟨0, 1, [1], [1], none⟩]⟩]⟩ 7) :=
  (c4_idempotent
    (⟨"c1", "b", some ⟨fun _ => .ok ⟨[⟨1, "h1", 9092⟩], [⟨"t", [⟨0, 1, [1], [1], none⟩]⟩]⟩,
        .ok ⟨[⟨"g", "Stable", []⟩]⟩⟩⟩ : MetadataFetcherTask)
    ⟨fun _ => .ok ⟨[⟨1, "h1", 9092⟩], [⟨"t", [⟨0, 1, [1], [1], none⟩]⟩]⟩,
        .ok ⟨[⟨"g", "Stable", []⟩]⟩⟩
    ⟨fun _ => false, fun _ => false, fun _ => false, fun _ => false⟩ 3 7 CacheState.empty
    ⟨[⟨1, "h1", 9092⟩], [⟨"t", [⟨0, 1, [1], [1], none⟩]⟩]⟩
    ⟨[⟨1, "h1", 9092⟩], [⟨"t", [⟨0, 1, [1], [1], none⟩]⟩]⟩
    ⟨[⟨"g", "Stable", []⟩]⟩ rfl rfl rfl rfl
    ⟨fun _ => rfl, fun _ => rfl, fun _ => rfl, fun _ => rfl⟩).2.2.2.2.2.2

/-- C6: a partition reporting a partition-level error condition still appears
in its topic's stored partition list (in the topic cache and in the aggregate
snapshot) with its error field set to the non-empty description, and the run
as a whole still succeeds. -/
theorem c6_partition_error_is_data (task : MetadataFetcherTask) (c : ConsumerBehavior)
    (f : WriteFaults) (now : Nat) (st : CacheState) (r : TopologyResponse)
    (gl : GroupListResponse) (tp : RDTopic) (rp : RDPartition) (e : RDError)
    (hc : task.consumer = some c) (h0 : c.topoFetch 0 = .ok r) (h1 : c.topoFetch 1 = .ok r)
    (hg : c.groupFetch = .ok gl) (hf : noWriteFaults f)
    (htp : tp ∈ r.topics) (huniq : ∀ t2 ∈ r.topics, t2.name = tp.name → t2 = tp)
    (hrp : rp ∈ tp.partitions) (he : rp.error = some e)
    (hne : resp_err_description e ≠ "") :
    (task.run f now st).2 = .ok ()
    ∧ (task.run f now st).1.topicCache (task.cluster_id, tp.name) = some (topicPartitions tp)
    ∧ mkPartition rp ∈ topicPartitions tp
    ∧ (∃ m, (task.run f now st).1.cache task.cluster_id = some m
        ∧ (tp.name, topicPartitions tp) ∈ m.topics)
    ∧ (mkPartition rp).error = some (resp_err_description e)
    ∧ resp_err_description e ≠ "" := by
  obtain ⟨hfc, hfb, hft, hfg⟩ := hf
  have htf : ∀ t ∈ r.topics, f.topicFail (task.cluster_id, t.name) = false :=
    fun t _ => hft _
  have erun := run_ok task c f now st r r gl hc h0 (hfc _) h1 (hfb _) htf hg
  rw [erun]
  refine ⟨rfl, ?_, ?_, ?_, ?_, hne⟩
  · show applyTopics task.cluster_id r.topics st.topicCache (task.cluster_id, tp.name)
      = some (topicPartitions tp)
    rw [applyTopics_lookup, lastTopic_of_unique task.cluster_id tp r.topics htp huniq]
    rfl
  · exact mem_sortPartitions.mpr (List.mem_map_of_mem mkPartition hrp)
  · refine ⟨mkMetadata r now, ?_, ?_⟩
    · exact CMap.lookup_insert_self _ _ _
    · exact mem_normalizeTopics_of_unique htp huniq
  · simp [mkPartition, he]

/-- Witness for C6: a concrete partition whose leader is unavailable is stored
with its non-empty error description while the surrounding run succeeds. -/
theorem c6_partition_error_is_data_witness :
    ((⟨"c1", "b", some ⟨fun _ => .ok ⟨[⟨1, "h1", 9092⟩],
          [⟨"t", [⟨0, -1, [1], [], some ⟨"Broker: Leader not available"⟩⟩]⟩]⟩,
        .ok ⟨[]⟩⟩⟩ : MetadataFetcherTask).run
      ⟨fun _ => false, fun _ => false, fun _ => false, fun _ => false⟩ 3
      CacheState.empty).2 = .ok ()
    ∧ ((⟨"c1", "b", some ⟨fun _ => .ok ⟨[⟨1, "h1", 9092⟩],
          [⟨"t", [⟨0, -1, [1], [], some ⟨"Broker: Leader not available"⟩⟩]⟩]⟩,
        .ok ⟨[]⟩⟩⟩ : MetadataFetcherTask).run
      ⟨fun _ => false, fun _ => false, fun _ => false, fun _ => false⟩ 3
      CacheState.empty).1.topicCache ("c1", "t")
      = some (topicPartitions ⟨"t", [⟨0, -1, [1], [], some ⟨"Broker: Leader not available"⟩⟩]⟩)
    ∧ mkPartition ⟨0, -1, [1], [], some ⟨"Broker: Leader not available"⟩⟩
        ∈ topicPartitions ⟨"t", [⟨0, -1, [1], [], some ⟨"Broker: Leader not available"⟩⟩]⟩
    ∧ (mkPartition ⟨0, -1, [1], [], some ⟨"Broker: Leader not available"⟩⟩).error
        = some "Broker: Leader not available" := by
  have h := c6_partition_error_is_data
    (⟨"c1", "b", some ⟨fun _ => .ok ⟨[⟨1, "h1", 9092⟩],
          [⟨"t", [⟨0, -1, [1], [], some ⟨"Broker: Leader not available"⟩⟩]⟩]⟩,
        .ok ⟨[]⟩⟩⟩ : MetadataFetcherTask)
    ⟨fun _ => .ok ⟨[⟨1, "h1", 9092⟩],
          [⟨"t", [⟨0, -1, [1], [], some ⟨"Broker: Leader not available"⟩⟩]⟩]⟩,
        .ok ⟨[]⟩⟩
    ⟨fun _ => false, fun _ => false, fun _ => false, fun _ => false⟩ 3 CacheState.empty
    ⟨[⟨1, "h1", 9092⟩], [⟨"t", [⟨0, -1, [1], [], some ⟨"Broker: Leader not available"⟩⟩]⟩]⟩
    ⟨[]⟩
    ⟨"t", [⟨0, -1, [1], [], some ⟨"Broker: Leader not available"⟩⟩]⟩
    ⟨0, -1, [1], [], some ⟨"Broker: Leader not available"⟩⟩
    ⟨"Broker: Leader not available"⟩
    rfl rfl rfl rfl ⟨fun _ => rfl, fun _ => rfl, fun _ => rfl, fun _ => rfl⟩
    (by decide) (by decide) (by decide) rfl (by decide)
  exact ⟨h.1, h.2.1, h.2.2.1, h.2.2.2.2.1⟩

/-- C9: a run consults the connection exactly through its first and second
topology round-trips and its group-list round-trip (two consumers agreeing on
those agree on the whole run), and both decomposed caches are populated from
the second topology response — the broker-cache entry holds the second
response's brokers and the whole post-run topic cache is the insertion of the
second response's topics over the prior topic cache — while the aggregate
snapshot is built from the first response. -/
theorem c9_two_topology_round_trips :
    (∀ (task : MetadataFetcherTask) (c c2 : ConsumerBehavior) (f : WriteFaults)
       (now : Nat) (st : CacheState),
      task.consumer = some c →
      c.topoFetch 0 = c2.topoFetch 0 → c.topoFetch 1 = c2.topoFetch 1 →
      c.groupFetch = c2.groupFetch →
      task.run f now st
        = ({ task with consumer := some c2 } : MetadataFetcherTask).run f now st)
    ∧ (∀ (task : MetadataFetcherTask) (c : ConsumerBehavior) (f : WriteFaults)
         (now : Nat) (st : CacheState) (r0 r1 : TopologyResponse) (gl : GroupListResponse),
        task.consumer = some c → c.topoFetch 0 = .ok r0 →
        f.cacheFail task.cluster_id = false → c.topoFetch 1 = .ok r1 →
        f.brokerFail task.cluster_id = false →
        (∀ t ∈ r1.topics, f.topicFail (task.cluster_id, t.name) = false) →
        c.groupFetch = .ok gl →
        (task.run f now st).1.cache task.cluster_id = some (mkMetadata r0 now)
        ∧ (task.run f now st).1.brokerCache task.cluster_id
            = some (r1.brokers.map mkBroker)
        ∧ (task.run f now st).1.topicCache
            = applyTopics task.cluster_id r1.topics st.topicCache) := by
  constructor
  · intro task c c2 f now st hc h0 h1 hg
    have hcon2 : ({ task with consumer := some c2 } : MetadataFetcherTask).consumer
        = some c2 := rfl
    have hcid : ({ task with consumer := some c2 } : MetadataFetcherTask).cluster_id
        = task.cluster_id := rfl
    simp only [MetadataFetcherTask.run, hc, hcon2, hcid]
    rw [h0, h1, hg]
  · intro task c f now st r0 r1 gl hc h0 hcf h1 hbf htf hg
    rw [run_ok task c f now st r0 r1 gl hc h0 hcf h1 hbf htf hg]
    exact ⟨CMap.lookup_insert_self _ _ _, CMap.lookup_insert_self _ _ _, rfl⟩

/-- Witness for C9 at a concrete consumer whose two topology round-trips
return different, non-empty responses: the aggregate snapshot holds the first
response's data, while the broker cache holds the second response's broker and
the topic cache holds exactly the second response's topic — the first
response's topic t0 is absent from the topic cache. -/
theorem c9_two_topology_round_trips_witness :
    ((⟨"c1", "b", some ⟨fun n =>
          if n = 0 then .ok ⟨[⟨1, "h1", 9092⟩], [⟨"t0", [⟨0, 1, [1], [1], none⟩]⟩]⟩
          else .ok ⟨[⟨2, "h2", 9093⟩], [⟨"t1", [⟨0, 2, [2], [2], none⟩]⟩]⟩,
        .ok ⟨[]⟩⟩⟩ : MetadataFetcherTask).run
      ⟨fun _ => false, fun _ => false, fun _ => false, fun _ => false⟩ 3
      CacheState.empty).1.cache "c1"
      = some (mkMetadata ⟨[⟨1, "h1", 9092⟩], [⟨"t0", [⟨0, 1, [1], [1], none⟩]⟩]⟩ 3)
    ∧ ((⟨"c1", "b", some ⟨fun n =>
          if n = 0 then .ok ⟨[⟨1, "h1", 9092⟩], [⟨"t0", [⟨0, 1, [1], [1], none⟩]⟩]⟩
          else .ok ⟨[⟨2, "h2", 9093⟩], [⟨"t1", [⟨0, 2, [2], [2], none⟩]⟩]⟩,
        .ok ⟨[]⟩⟩⟩ : MetadataFetcherTask).run
      ⟨fun _ => false, fun _ => false, fun _ => false, fun _ => false⟩ 3
      CacheState.empty).1.brokerCache "c1" = some [⟨2, "h2", 9093⟩]
    ∧ ((⟨"c1", "b", some ⟨fun n =>
          if n = 0 then .ok ⟨[⟨1, "h1", 9092⟩], [⟨"t0", [⟨0, 1, [1], [1], none⟩]⟩]⟩
          else .ok ⟨[⟨2, "h2", 9093⟩], [⟨"t1", [⟨0, 2, [2], [2], none⟩]⟩]⟩,
        .ok ⟨[]⟩⟩⟩ : MetadataFetcherTask).run
      ⟨fun _ => false, fun _ => false, fun _ => false, fun _ => false⟩ 3
      CacheState.empty).1.topicCache ("c1", "t1")
      = some (topicPartitions ⟨"t1", [⟨0, 2, [2], [2], none⟩]⟩)
    ∧ ((⟨"c1", "b", some ⟨fun n =>
          if n = 0 then .ok ⟨[⟨1, "h1", 9092⟩], [⟨"t0", [⟨0, 1, [1], [1], none⟩]⟩]⟩
          else .ok ⟨[⟨2, "h2", 9093⟩], [⟨"t1", [⟨0, 2, [2], [2], none⟩]⟩]⟩,
        .ok ⟨[]⟩⟩⟩ : MetadataFetcherTask).run
      ⟨fun _ => false, fun _ => false, fun _ => false, fun _ => false⟩ 3
      CacheState.empty).1.topicCache ("c1", "t0") = none := by
  have h := c9_two_topology_round_trips.2
    (⟨"c1", "b", some ⟨fun n =>
          if n = 0 then .ok ⟨[⟨1, "h1", 9092⟩], [⟨"t0", [⟨0, 1, [1], [1], none⟩]⟩]⟩
          else .ok ⟨[⟨2, "h2", 9093⟩], [⟨"t1", [⟨0, 2, [2], [2], none⟩]⟩]⟩,
        .ok ⟨[]⟩⟩⟩ : MetadataFetcherTask)
    ⟨fun n =>
          if n = 0 then .ok ⟨[⟨1, "h1", 9092⟩], [⟨"t0", [⟨0, 1, [1], [1], none⟩]⟩]⟩
          else .ok ⟨[⟨2, "h2", 9093⟩], [⟨"t1", [⟨0, 2, [2], [2], none⟩]⟩]⟩,
        .ok ⟨[]⟩⟩
    ⟨fun _ => false, fun _ => false, fun _ => false, fun _ => false⟩ 3 CacheState.empty
    ⟨[⟨1, "h1", 9092⟩], [⟨"t0", [⟨0, 1, [1], [1], none⟩]⟩]⟩
    ⟨[⟨2, "h2", 9093⟩], [⟨"t1", [⟨0, 2, [2], [2], none⟩]⟩]⟩ ⟨[]⟩
    rfl rfl rfl rfl rfl (fun t ht => rfl) rfl
  refine ⟨h.1, h.2.1, ?_, ?_⟩
  · rw [h.2.2]
    rfl
  · rw [h.2.2]
    rfl

/-- Counterexample to C1: a concrete run whose decomposed-phase topology fetch
fails returns an error chain none of whose messages mentions the cluster id
(cluster c1), so the error is not enriched with cluster context. -/
theorem c1_counterexample :
    ((⟨"c1", "b", some ⟨fun n => if n = 0 then .ok ⟨[], []⟩ else .error "boom",
        .ok ⟨[]⟩⟩⟩ : MetadataFetcherTask).run
      ⟨fun _ => false, fun _ => false, fun _ => false, fun _ => false⟩ 3
      CacheState.empty).2
      = .error ["Failed to fetch metadata from consumer", "boom"]
    ∧ mentionsCluster "c1" ["Failed to fetch metadata from consumer", "boom"] = false := by
  exact ⟨rfl, by decide⟩

/-- C1 amended: a fetch failure in any phase aborts the remaining steps and
leaves every write committed by earlier steps of the run in place, but only
the aggregate-phase fetch error is enriched with the cluster id; the
decomposed-phase and groups-phase fetch errors carry only their fixed phase
message and the cause. -/
theorem c1_amended_fetch_failures_abort (task : MetadataFetcherTask) (c : ConsumerBehavior)
    (f : WriteFaults) (now : Nat) (st : CacheState) (cause : String)
    (hc : task.consumer = some c) :
    (c.topoFetch 0 = .error cause →
      task.run f now st =
        (st, .error (("Metadata fetch failed, cluster: " ++ task.cluster_id) ::
          "Failed to fetch metadata from consumer" :: [cause])))
    ∧ (∀ r0, c.topoFetch 0 = .ok r0 → f.cacheFail task.cluster_id = false →
        c.topoFetch 1 = .error cause →
        task.run f now st =
          ({ st with cache := st.cache.insert task.cluster_id (mkMetadata r0 now) },
           .error ["Failed to fetch metadata from consumer", cause]))
    ∧ (∀ r0 r1, c.topoFetch 0 = .ok r0 → f.cacheFail task.cluster_id = false →
        c.topoFetch 1 = .ok r1 → f.brokerFail task.cluster_id = false →
        (∀ t ∈ r1.topics, f.topicFail (task.cluster_id, t.name) = false) →
        c.groupFetch = .error cause →
        task.run f now st =
          ({ cache := st.cache.insert task.cluster_id (mkMetadata r0 now),
             brokerCache := st.brokerCache.insert task.cluster_id (r1.brokers.map mkBroker),
             topicCache := applyTopics task.cluster_id r1.topics st.topicCache,
             groupCache := st.groupCache },
           .error ["Failed to fetch consumer group list", cause])) := by
  refine ⟨?_, ?_, ?_⟩
  · intro h0
    exact run_fetch0_error task c f now st cause hc h0
  · intro r0 h0 hcf h1
    exact run_fetch1_error task c f now st r0 cause hc h0 hcf h1
  · intro r0 r1 h0 hcf h1 hbf htf hg
    exact run_groupFetch_error task c f now st r0 r1 cause hc h0 hcf h1 hbf htf hg

/-- Witness for amended C1: concrete aggregate-phase failure aborts the run
before any write and the error chain carries the cluster id. -/
theorem c1_amended_fetch_failures_abort_witness :
    (⟨"c1", "b", some ⟨fun _ => .error "boom", .ok ⟨[]⟩⟩⟩ : MetadataFetcherTask).run
      ⟨fun _ => false, fun _ => false, fun _ => false, fun _ => false⟩ 3 CacheState.empty
      = (CacheState.empty, .error ["Metadata fetch failed, cluster: c1",
          "Failed to fetch metadata from consumer", "boom"]) :=
  (c1_amended_fetch_failures_abort
    (⟨"c1", "b", some ⟨fun _ => .error "boom", .ok ⟨[]⟩⟩⟩ : MetadataFetcherTask)
    ⟨fun _ => .error "boom", .ok ⟨[]⟩⟩
    ⟨fun _ => false, fun _ => false, fun _ => false, fun _ => false⟩ 3 CacheState.empty
    "boom" rfl).1 rfl

/-- Counterexample to C2: a concrete run in which the group-cache write fails
(the entry is indeed absent afterwards) still returns success, so a cache
write failure during the run does not make `run` return an error. -/
theorem c2_counterexample :
    ((⟨"c1", "b", some ⟨fun _ => .ok ⟨[], []⟩, .ok ⟨[⟨"g1", "Stable", []⟩]⟩⟩⟩ :
        MetadataFetcherTask).run
      ⟨fun _ => false, fun _ => false, fun _ => false, fun _ => true⟩ 3
      CacheState.empty).2 = .ok ()
    ∧ ((⟨"c1", "b", some ⟨fun _ => .ok ⟨[], []⟩, .ok ⟨[⟨"g1", "Stable", []⟩]⟩⟩⟩ :
        MetadataFetcherTask).run
      ⟨fun _ => false, fun _ => false, fun _ => false, fun _ => true⟩ 3
      CacheState.empty).1.groupCache ("c1", "g1") = none := by
  exact ⟨rfl, rfl⟩

/-- C2 amended: a failed write to the aggregate, broker or topic cache makes
`run` return an error, but the error is a fixed message that names neither the
key nor, for the topic cache, the right cache (the topic-cache message speaks
of broker information); a failed group-cache write is ignored entirely and the
run still succeeds. -/
theorem c2_amended_write_failures (task : MetadataFetcherTask) (c : ConsumerBehavior)
    (f : WriteFaults) (now : Nat) (st : CacheState)
    (hc : task.consumer = some c) :
    (∀ r0, c.topoFetch 0 = .ok r0 → f.cacheFail task.cluster_id = true →
      task.run f now st = (st, .error ["Failed to create new metadata container to cache"]))
    ∧ (∀ r0 r1, c.topoFetch 0 = .ok r0 → f.cacheFail task.cluster_id = false →
        c.topoFetch 1 = .ok r1 → f.brokerFail task.cluster_id = true →
        task.run f now st =
          ({ st with cache := st.cache.insert task.cluster_id (mkMetadata r0 now) },
           .error ["Failed to insert broker information in cache"]))
    ∧ (∀ r0 r1, c.topoFetch 0 = .ok r0 → f.cacheFail task.cluster_id = false →
        c.topoFetch 1 = .ok r1 → f.brokerFail task.cluster_id = false →
        (∃ t ∈ r1.topics, f.topicFail (task.cluster_id, t.name) = true) →
        (task.run f now st).2 = .error ["Failed to insert broker information in cache"])
    ∧ (∀ r0 r1 gl, c.topoFetch 0 = .ok r0 → f.cacheFail task.cluster_id = false →
        c.topoFetch 1 = .ok r1 → f.brokerFail task.cluster_id = false →
        (∀ t ∈ r1.topics, f.topicFail (task.cluster_id, t.name) = false) →
        c.groupFetch = .ok gl →
        (task.run f now st).2 = .ok ()) := by
  refine ⟨?_, ?_, ?_, ?_⟩
  · intro r0 h0 hcf
    exact run_cacheFail task c f now st r0 hc h0 hcf
  · intro r0 r1 h0 hcf h1 hbf
    exact run_brokerFail task c f now st r0 r1 hc h0 hcf h1 hbf
  · intro r0 r1 h0 hcf h1 hbf hex
    rw [run_unfold2 task c f now st r0 r1 hc h0 hcf h1 hbf]
    have hsnd := insertTopics_snd_error task.cluster_id f r1.topics st.topicCache hex
    rcases hins : insertTopics task.cluster_id f r1.topics st.topicCache with ⟨tc, res⟩
    rw [hins] at hsnd
    cases res with
    | error e =>
      have he : e = ["Failed to insert broker information in cache"] := by
        simpa using hsnd
      subst he
      rfl
    | ok u => simp at hsnd
  · intro r0 r1 gl h0 hcf h1 hbf htf hg
    rw [run_ok task c f now st r0 r1 gl hc h0 hcf h1 hbf htf hg]

/-- Witness for amended C2: a concrete failed broker-cache write surfaces as
the fixed keyless message while the aggregate write of the same run remains. -/
theorem c2_amended_write_failures_witness :
    (⟨"c1", "b", some ⟨fun _ => .ok ⟨[], []⟩, .ok ⟨[]⟩⟩⟩ : MetadataFetcherTask).run
      ⟨fun _ => false, fun _ => true, fun _ => false, fun _ => false⟩ 3 CacheState.empty
      = ({ CacheState.empty with
            cache := CacheState.empty.cache.insert "c1" (mkMetadata ⟨[], []⟩ 3) },
         .error ["Failed to insert broker information in cache"]) :=
  ((c2_amended_write_failures
    (⟨"c1", "b", some ⟨fun _ => .ok ⟨[], []⟩, .ok ⟨[]⟩⟩⟩ : MetadataFetcherTask)
    ⟨fun _ => .ok ⟨[], []⟩, .ok ⟨[]⟩⟩
    ⟨fun _ => false, fun _ => true, fun _ => false, fun _ => false⟩ 3 CacheState.empty
    rfl).2.1) ⟨[], []⟩ ⟨[], []⟩ rfl rfl rfl rfl

/-- Counterexample to C8: with a concrete failing connection, `add_cluster`
panics with the `.expect` message instead of returning a setup error. -/
theorem c8_counterexample :
    ({ scheduler := Scheduler.new 10 2 } : MetadataFetcher).add_cluster "c1" "b"
        (.error "Connection refused")
      = .panicked "Consumer creation failed"
    ∧ returnsErrValue (({ scheduler := Scheduler.new 10 2 } : MetadataFetcher).add_cluster
        "c1" "b" (.error "Connection refused")) = false := by
  exact ⟨rfl, rfl⟩

/-- C8 amended: when the connection cannot be established, `create_consumer`
panics with the message Consumer creation failed instead of returning an
error, and the task is not registered with the scheduler (no normal return
occurs); when the connection succeeds, the task is registered and the returned
result is Ok. -/
theorem c8_amended_panics_on_setup_failure (fetcher : MetadataFetcher)
    (cluster_id : ClusterId) (boostrap_servers : String) :
    (∀ cause, fetcher.add_cluster cluster_id boostrap_servers (.error cause)
        = .panicked "Consumer creation failed")
    ∧ (∀ c, fetcher.add_cluster cluster_id boostrap_servers (.ok c)
        = .ret (⟨fetcher.scheduler.add_task cluster_id
            ⟨cluster_id, boostrap_servers, some c⟩⟩, .ok ())) := by
  constructor
  · intro cause
    rfl
  · intro c
    rfl

end KafkaView
